import Mathlib

/-!
# Verification of `internal/issuer/signer/signer.go` (atlas-cert-manager)

A shallow embedding of the HVCA signer: the connection bootstrapper
`HVCASignerFromIssuerAndSecretData` and the issuance orchestrator `Sign`,
together with models of the external collaborators they call
(`encoding/pem`, `encoding/base64` from the Go standard library, and the
`hvclient` CA client, whose remote calls are oracle parameters).

Go byte slices are modelled as `List Nat` (each entry a byte value `< 256`),
Go strings as Lean `String` (and as their byte lists where the code treats
them as bytes), Go `int` as `Int`, and a Go `panic` as a distinguished
`crash` outcome.
-/

namespace AtlasSigner

/-- Go `[]byte`, one `Nat` per byte. -/
abbrev Bytes := List Nat

/-- Outcome of a fallible Go function: normal return value, a returned
`error`, or a runtime `panic` (nil dereference, index out of range). -/
inductive GoResult (α : Type) where
  | ok : α → GoResult α
  | err : String → GoResult α
  | crash : String → GoResult α
deriving DecidableEq, Repr

/-- Byte list of a Go string (Go strings are byte slices; all our string
literals are ASCII, one byte per character). -/
def strBytes (s : String) : Bytes := s.data.map Char.toNat

/-- Go `string(b)` conversion from bytes. -/
def bytesToStr (l : Bytes) : String := String.mk (l.map Char.ofNat)

/-! ## Model of `encoding/base64` (Go standard library)

Standard base64 alphabet with `=` padding; the 64-column line wrapping done
by `encoding/pem` is omitted (it does not affect which byte sequences a
block encodes). -/

/-- The base64 alphabet: sextet value to ASCII code. -/
def b64Table (n : Nat) : Nat :=
  if n < 26 then 65 + n
  else if n < 52 then 97 + (n - 26)
  else if n < 62 then 48 + (n - 52)
  else if n = 62 then 43
  else 47

/-- Inverse alphabet: ASCII code back to sextet value. -/
def b64Inv (c : Nat) : Option Nat :=
  if 65 ≤ c ∧ c ≤ 90 then some (c - 65)
  else if 97 ≤ c ∧ c ≤ 122 then some (26 + (c - 97))
  else if 48 ≤ c ∧ c ≤ 57 then some (52 + (c - 48))
  else if c = 43 then some 62
  else if c = 47 then some 63
  else none

theorem b64Inv_b64Table {s : Nat} (hs : s < 64) : b64Inv (b64Table s) = some s := by
  unfold b64Table b64Inv
  split_ifs <;> simp_all <;> omega

theorem b64Table_ne_pad (s : Nat) : b64Table s ≠ 61 := by
  unfold b64Table
  split_ifs <;> omega

/-- base64-encode a byte list (three bytes to four characters, `=` padding). -/
def b64encode : Bytes → Bytes
  | [] => []
  | [a] => [b64Table (a / 4), b64Table (a % 4 * 16), 61, 61]
  | [a, b] => [b64Table (a / 4), b64Table (a % 4 * 16 + b / 16), b64Table (b % 16 * 4), 61]
  | a :: b :: c :: rest =>
    b64Table (a / 4) :: b64Table (a % 4 * 16 + b / 16) ::
      b64Table (b % 16 * 4 + c / 64) :: b64Table (c % 64) :: b64encode rest

/-- base64-decode a character list, inverse of `b64encode`. -/
def b64decode : Bytes → Option Bytes
  | [] => some []
  | c1 :: c2 :: c3 :: c4 :: rest =>
    match b64Inv c1, b64Inv c2 with
    | some s1, some s2 =>
      if c3 = 61 then
        if c4 = 61 ∧ rest = [] then some [s1 * 4 + s2 / 16] else none
      else
        match b64Inv c3 with
        | some s3 =>
          if c4 = 61 then
            if rest = [] then some [s1 * 4 + s2 / 16, s2 % 16 * 16 + s3 / 4] else none
          else
            match b64Inv c4 with
            | some s4 =>
              match b64decode rest with
              | some bs => some ((s1 * 4 + s2 / 16) :: (s2 % 16 * 16 + s3 / 4) ::
                  (s3 % 4 * 64 + s4) :: bs)
              | none => none
            | none => none
        | none => none
    | _, _ => none
  | _ => none

theorem b64decode_b64encode : ∀ l : Bytes, (∀ x ∈ l, x < 256) →
    b64decode (b64encode l) = some l := by
  intro l
  induction l using b64encode.induct with
  | case1 => intro _; rfl
  | case2 a =>
    intro h
    have ha : a < 256 := h a (by simp)
    simp only [b64encode, b64decode]
    rw [b64Inv_b64Table (by omega), b64Inv_b64Table (by omega)]
    simp only [b64Table_ne_pad]
    norm_num
    omega
  | case3 a b =>
    intro h
    have ha : a < 256 := h a (by simp)
    have hb : b < 256 := h b (by simp)
    simp only [b64encode, b64decode]
    rw [b64Inv_b64Table (by omega), b64Inv_b64Table (by omega),
      b64Inv_b64Table (by omega)]
    simp only [b64Table_ne_pad]
    norm_num
    constructor <;> omega
  | case4 a b c rest ih =>
    intro h
    have ha : a < 256 := h a (by simp)
    have hb : b < 256 := h b (by simp)
    have hc : c < 256 := h c (by simp)
    have hrest : ∀ x ∈ rest, x < 256 := fun x hx => h x (by simp [hx])
    simp only [b64encode, b64decode]
    rw [b64Inv_b64Table (by omega), b64Inv_b64Table (by omega),
      b64Inv_b64Table (by omega), b64Inv_b64Table (by omega)]
    simp only [b64Table_ne_pad, if_false]
    rw [ih hrest]
    norm_num
    refine ⟨by omega, by omega, by omega⟩

/-! ## Model of `encoding/pem` (Go standard library)

A `pem.Block` and the `pem.EncodeToMemory` / `pem.Decode` pair used by the
signer. `pemDecode` parses exactly the format `pemEncodeToMemory` emits
(`-----BEGIN type-----`, base64 payload, `-----END type-----`); Go's
decoder additionally skips leading garbage and optional headers, which the
signer never produces, and returns `none` (Go: a nil `*pem.Block`) when no
block can be parsed. -/

/-- Go `pem.Block` (the `Headers` field, unused by the signer, is omitted). -/
structure PemBlock where
  blockType : String
  bytes : Bytes
deriving DecidableEq, Repr

/-- Consume an expected leading byte sequence, returning the remainder. -/
def dropLeading : Bytes → Bytes → Option Bytes
  | [], l => some l
  | _ :: _, [] => none
  | p :: ps, c :: cs => if p = c then dropLeading ps cs else none

/-- Consume an expected trailing byte sequence, returning the front part. -/
def dropTrailing (s l : Bytes) : Option Bytes :=
  (dropLeading s.reverse l.reverse).map List.reverse

/-- Split a byte list at its first newline (byte 10). -/
def splitAtNewline : Bytes → Option (Bytes × Bytes)
  | [] => none
  | c :: rest =>
    if c = 10 then some ([], rest)
    else
      match splitAtNewline rest with
      | none => none
      | some p => some (c :: p.1, p.2)

theorem dropLeading_append (p r : Bytes) : dropLeading p (p ++ r) = some r := by
  induction p with
  | nil => rfl
  | cons a ps ih => simp [dropLeading, ih]

theorem dropTrailing_append (s x : Bytes) : dropTrailing s (x ++ s) = some x := by
  unfold dropTrailing
  rw [List.reverse_append, dropLeading_append]
  simp

theorem splitAtNewline_append {xs : Bytes} (ys : Bytes) (h : 10 ∉ xs) :
    splitAtNewline (xs ++ 10 :: ys) = some (xs, ys) := by
  induction xs with
  | nil => rfl
  | cons a as ih =>
    have ha : a ≠ 10 := fun hEq => h (by simp [hEq])
    have has : 10 ∉ as := fun hm => h (by simp [hm])
    simp [splitAtNewline, ha, ih has]

theorem b64Table_ge (s : Nat) : 43 ≤ b64Table s := by
  unfold b64Table
  split_ifs <;> omega

theorem b64encode_ge : ∀ l : Bytes, ∀ x ∈ b64encode l, 43 ≤ x := by
  intro l
  induction l using b64encode.induct with
  | case1 => simp [b64encode]
  | case2 a =>
    intro x hx
    simp only [b64encode, List.mem_cons, List.not_mem_nil, or_false] at hx
    rcases hx with rfl | rfl | rfl | rfl <;> first | exact b64Table_ge _ | omega
  | case3 a b =>
    intro x hx
    simp only [b64encode, List.mem_cons, List.not_mem_nil, or_false] at hx
    rcases hx with rfl | rfl | rfl | rfl <;> first | exact b64Table_ge _ | omega
  | case4 a b c rest ih =>
    intro x hx
    simp only [b64encode, List.mem_cons] at hx
    rcases hx with rfl | rfl | rfl | rfl | hx
    · exact b64Table_ge _
    · exact b64Table_ge _
    · exact b64Table_ge _
    · exact b64Table_ge _
    · exact ih x hx

theorem b64encode_no_newline (l : Bytes) : 10 ∉ b64encode l := fun hm => by
  have := b64encode_ge l 10 hm
  omega

/-- Go `pem.EncodeToMemory(&pem.Block{Type: t, Bytes: b})`. -/
def pemEncodeToMemory (b : PemBlock) : Bytes :=
  strBytes "-----BEGIN " ++ strBytes b.blockType ++ strBytes "-----" ++ [10] ++
    b64encode b.bytes ++ [10] ++
    strBytes "-----END " ++ strBytes b.blockType ++ strBytes "-----" ++ [10]

/-- Go `pem.Decode`: `none` models the nil `*pem.Block` returned when the
input holds no parsable PEM block. Parses the exact format
`pemEncodeToMemory` produces: BEGIN line, base64 payload line, END line
with a matching type. -/
def pemDecode (l : Bytes) : Option PemBlock :=
  match dropLeading (strBytes "-----BEGIN ") l with
  | none => none
  | some r1 =>
  match splitAtNewline r1 with
  | none => none
  | some (line1, r2) =>
  match dropTrailing (strBytes "-----") line1 with
  | none => none
  | some typeBytes =>
  match splitAtNewline r2 with
  | none => none
  | some (payload, r3) =>
  match dropLeading (strBytes "-----END ") r3 with
  | none => none
  | some r4 =>
  match splitAtNewline r4 with
  | none => none
  | some (line3, _) =>
  match dropTrailing (strBytes "-----") line3 with
  | none => none
  | some endTypeBytes =>
  if endTypeBytes = typeBytes then
    match b64decode payload with
    | none => none
    | some bs => some { blockType := bytesToStr typeBytes, bytes := bs }
  else none

theorem pemDecode_nil : pemDecode [] = none := rfl

/-- The PEM round trip for the blocks the signer emits: a `CERTIFICATE`
block re-read by the decoder yields the identical DER bytes. -/
theorem pemDecode_pemEncode_certificate (raw : Bytes) (h : ∀ x ∈ raw, x < 256) :
    pemDecode (pemEncodeToMemory { blockType := "CERTIFICATE", bytes := raw }) =
      some { blockType := "CERTIFICATE", bytes := raw } := by
  unfold pemEncodeToMemory pemDecode
  simp only [List.append_assoc, List.cons_append, List.nil_append]
  set A := b64encode raw with hA
  set B := strBytes "-----BEGIN " with hB
  set T := strBytes "CERTIFICATE" with hT
  set D := strBytes "-----" with hD
  set E := strBytes "-----END " with hE
  have hTD10 : 10 ∉ T ++ D := by rw [hT, hD]; decide
  have hA10 : 10 ∉ A := hA ▸ b64encode_no_newline raw
  rw [dropLeading_append]
  dsimp only
  rw [show T ++ (D ++ 10 :: (A ++ 10 :: (E ++ (T ++ (D ++ [10]))))) =
      (T ++ D) ++ 10 :: (A ++ 10 :: (E ++ (T ++ (D ++ [10])))) by simp]
  rw [splitAtNewline_append _ hTD10]
  dsimp only
  rw [dropTrailing_append]
  dsimp only
  rw [splitAtNewline_append _ hA10]
  dsimp only
  rw [dropLeading_append]
  dsimp only
  rw [show T ++ (D ++ [10]) = (T ++ D) ++ 10 :: ([] : Bytes) by simp]
  rw [splitAtNewline_append _ hTD10]
  dsimp only
  rw [dropTrailing_append]
  dsimp only
  rw [if_pos rfl, hA, b64decode_b64encode raw h]
  have : bytesToStr T = "CERTIFICATE" := by rw [hT]; decide
  rw [this]

/-! ## Data model: hvclient policy, CSR, outbound request

Mirrors the `hvclient` types the signer reads and writes. Presence values
follow the `hvclient` constants (`Optional` = 1, `Required` = 2; the code
itself compares `vp.SignaturePolicy.HashAlgorithm.Presence == 2` with the
comment "Presence is required"). Key-algorithm names stand for the
`.String()` renderings compared by the code. -/

/-- `hvclient.Required`. -/
def hvRequired : Nat := 2

/-- `hvclient.Optional`. -/
def hvOptional : Nat := 1

/-- The `hvclient.PKCS10` key-format constant (only ever compared for
equality by the signer, so the numeral is immaterial). -/
def hvPKCS10 : Nat := 0

/-- A subject-DN field rule of the validation policy (its `Presence`). -/
structure CertField where
  presence : Nat
deriving DecidableEq, Repr

structure SubjectDNPolicy where
  commonName : CertField
  serialNumber : CertField
deriving DecidableEq, Repr

/-- SAN list rule: `Static`, `MinCount`, `MaxCount` (Go `int`). -/
structure ListPolicy where
  static : Bool
  minCount : Int
  maxCount : Int
deriving DecidableEq, Repr

structure SANPolicy where
  dnsNames : ListPolicy
  ipAddresses : ListPolicy
deriving DecidableEq, Repr

/-- `vp.PublicKey`: `keyType` is the `.String()` of the required algorithm. -/
structure PublicKeyPolicy where
  keyType : String
  keyFormat : Nat
deriving DecidableEq, Repr

/-- `vp.SignaturePolicy.HashAlgorithm`: presence rule plus the list of
acceptable algorithms. -/
structure HashAlgorithmPolicy where
  presence : Nat
  list : List String
deriving DecidableEq, Repr

structure SignaturePolicyT where
  hashAlgorithm : HashAlgorithmPolicy
deriving DecidableEq, Repr

/-- The validation policy fetched from the CA (`clnt.Policy`). -/
structure ValidationPolicy where
  subjectDN : SubjectDNPolicy
  san : SANPolicy
  publicKey : PublicKeyPolicy
  signaturePolicy : SignaturePolicyT
deriving DecidableEq, Repr

/-- The parsed CSR fields the signer reads (`x509.CertificateRequest`).
IP addresses are kept as opaque strings; `publicKeyAlgorithm` is the
`.String()` rendering compared against the policy. -/
structure CSR where
  commonName : String
  serialNumber : String
  dnsNames : List String
  ipAddresses : List String
  publicKeyAlgorithm : String
deriving DecidableEq, Repr

/-- `hvclient.DN` as populated by the signer. -/
structure DN where
  commonName : String := ""
  serialNumber : String := ""
deriving DecidableEq, Repr

/-- `hvclient.SAN` as populated by the signer. -/
structure SANValues where
  dnsNames : List String := []
  ipAddresses : List String := []
deriving DecidableEq, Repr

/-- `hvclient.Validity{NotBefore: time.Now(), NotAfter: time.Unix(0, 0)}`;
instants as Unix times. -/
structure Validity where
  notBefore : Int
  notAfter : Int
deriving DecidableEq, Repr

structure SignatureValues where
  hashAlgorithm : String := ""
deriving DecidableEq, Repr

/-- The outbound `hvclient.Request` (its `CSR` field carries the parsed
CSR, which line 127 of the source reads back as `req.CSR.DNSNames`). -/
structure Request where
  csr : CSR
  subject : DN
  san : SANValues
  validity : Validity
  signature : SignatureValues
deriving DecidableEq, Repr

/-! ## The orchestrator `Sign` (signer.go lines 70-183)

The validation/projection block (lines 99-152) is the pure function
`buildRequest`; the remote calls are oracle fields of `HVClientOracle`
(what the CA answers in this run), and `SignEnv` additionally carries the
outcomes of `hvclient.NewClient` and of `parseCSR` (defined elsewhere in
the repository). -/

/-- Subject common name carried into the outbound request
(lines 100-109, after the required-but-empty check has passed). -/
def outboundCommonName (vp : ValidationPolicy) (csr : CSR) : String :=
  if vp.subjectDN.commonName.presence = hvRequired ∨
      vp.subjectDN.commonName.presence = hvOptional then
    csr.commonName
  else ""

/-- Subject serial number carried into the outbound request
(lines 112-120). -/
def outboundSerialNumber (vp : ValidationPolicy) (csr : CSR) : String :=
  if vp.subjectDN.serialNumber.presence = hvRequired ∨
      vp.subjectDN.serialNumber.presence = hvOptional then
    csr.serialNumber
  else ""

/-- DNS-name SAN population (lines 122-130). The backfill guard on line
127 reads `req.CSR.DNSNames` — the CSR attached to the request — so both
guards compare `len(csr.DNSNames)` with the policy maximum. -/
def populateDNSNames (vp : ValidationPolicy) (csr : CSR)
    (subjectCommonName : String) : List String :=
  if vp.san.dnsNames.static = false ∧ vp.san.dnsNames.maxCount > 0 then
    let copied :=
      if (csr.dnsNames.length : Int) < vp.san.dnsNames.maxCount then
        csr.dnsNames
      else []
    if subjectCommonName ≠ "" ∧
        (csr.dnsNames.length : Int) < vp.san.dnsNames.maxCount then
      copied ++ [subjectCommonName]
    else copied
  else []

/-- IP-address SAN population (lines 132-137): direct copy, no backfill. -/
def populateIPAddresses (vp : ValidationPolicy) (csr : CSR) : List String :=
  if vp.san.ipAddresses.static = false ∧ vp.san.ipAddresses.maxCount > 0 then
    if (csr.ipAddresses.length : Int) < vp.san.ipAddresses.maxCount then
      csr.ipAddresses
    else []
  else []

/-- Lines 99-152 of `Sign`: subject validation, SAN population, SAN
minimum check, key-type/key-format checks and hash-algorithm selection.
`now` is the `time.Now()` instant. `crash` models the Go panic raised by
`vp.SignaturePolicy.HashAlgorithm.List[0]` on an empty list. -/
def buildRequest (now : Int) (vp : ValidationPolicy) (csr : CSR) :
    GoResult Request :=
  if vp.subjectDN.commonName.presence = hvRequired ∧ csr.commonName = "" then
    .err "atlas validation policy requires subject common name, but CSR did not contain one"
  else if vp.subjectDN.serialNumber.presence = hvRequired ∧ csr.serialNumber = "" then
    .err "atlas validation policy requires subject serial number, but CSR did not contain one"
  else if vp.san.dnsNames.minCount >
      ((populateDNSNames vp csr (outboundCommonName vp csr)).length : Int) ∨
      vp.san.ipAddresses.minCount > ((populateIPAddresses vp csr).length : Int) then
    .err "atlas validation policy requires additional SANs not present in the provided CSR"
  else if vp.publicKey.keyType ≠ csr.publicKeyAlgorithm then
    .err ("csr public key type doesn't match Atlas account pubic key type: CSR - " ++
      (csr.publicKeyAlgorithm ++ ("Atlas - " ++ vp.publicKey.keyType)))
  else if vp.publicKey.keyFormat ≠ hvPKCS10 then
    .err "atlas account does not support pkcs10 key format, update atlas account"
  else if vp.signaturePolicy.hashAlgorithm.presence = 2 then
    match vp.signaturePolicy.hashAlgorithm.list with
    | [] => .crash "runtime error: index out of range [0] with length 0"
    | h :: _ =>
      .ok { csr := csr,
            subject := { commonName := outboundCommonName vp csr,
                         serialNumber := outboundSerialNumber vp csr },
            san := { dnsNames := populateDNSNames vp csr (outboundCommonName vp csr),
                     ipAddresses := populateIPAddresses vp csr },
            validity := { notBefore := now, notAfter := 0 },
            signature := { hashAlgorithm := h } }
  else
    .ok { csr := csr,
          subject := { commonName := outboundCommonName vp csr,
                       serialNumber := outboundSerialNumber vp csr },
          san := { dnsNames := populateDNSNames vp csr (outboundCommonName vp csr),
                   ipAddresses := populateIPAddresses vp csr },
          validity := { notBefore := now, notAfter := 0 },
          signature := { hashAlgorithm := "" } }

/-- `hvclient.CertInfo` (only `X509.Raw` is read). -/
structure CertInfo where
  x509Raw : Bytes
deriving DecidableEq, Repr

/-- Oracle for the remote CA calls a connected `hvclient.Client` makes in
one `Sign` run. -/
structure HVClientOracle where
  policyResult : Except String ValidationPolicy
  certificateRequestResult : Request → Except String Int
  certificateRetrieveResult : Int → Except String CertInfo
  trustChainResult : Except String (List Bytes)

/-- Environment of one `Sign` call: outcome of `hvclient.NewClient` (which
logs in remotely) and of `parseCSR` (defined elsewhere in the repository;
modelled as an oracle since only its `Except`-shaped result matters here). -/
structure SignEnv where
  newClientResult : Except String HVClientOracle
  parseCSRResult : Bytes → Except String CSR

/-- The remote interactions `Sign` can attempt, in pipeline order. -/
inductive RemoteStep where
  | newClient
  | policyFetch
  | submit
  | retrieveCert
  | retrieveChain
deriving DecidableEq, Repr

/-- The full remote pipeline of a successful `Sign` run. -/
def pipelineSteps : List RemoteStep :=
  [.newClient, .policyFetch, .submit, .retrieveCert, .retrieveChain]

/-- Result of one `Sign` call. `leaf`/`chain`/`error` are the three Go
return values (`none` = Go nil); `crashed` records a propagating panic;
`trace` lists the remote interactions attempted, in order; `globalErr` is
the value of the package-level `var err error` (signer.go line 15) after
the call. -/
structure SignResult where
  leaf : Option Bytes
  chain : Option Bytes
  error : Option String
  crashed : Bool
  trace : List RemoteStep
  globalErr : Option String
deriving DecidableEq, Repr

set_option linter.unusedVariables false in
/-- `(o *hvcaSigner) Sign(csrBytes)` (lines 70-183). The first statement
`clnt, err = hvclient.NewClient(...)` assigns the package-level `err`
(line 15); from `csr, err := parseCSR(...)` on, `err` is a fresh local
that shadows it, so the package-level variable keeps the `NewClient`
outcome. -/
def Sign (env : SignEnv) (now : Int) (globalErr0 : Option String)
    (csrBytes : Bytes) : SignResult :=
  match env.newClientResult with
  | .error e =>
    { leaf := none, chain := none, error := some e, crashed := false,
      trace := [.newClient], globalErr := some e }
  | .ok clnt =>
    match env.parseCSRResult csrBytes with
    | .error e =>
      { leaf := none, chain := none, error := some e, crashed := false,
        trace := [.newClient], globalErr := none }
    | .ok csr =>
      match clnt.policyResult with
      | .error e =>
        { leaf := none, chain := none, error := some e, crashed := false,
          trace := [.newClient, .policyFetch], globalErr := none }
      | .ok vp =>
        match buildRequest now vp csr with
        | .err e =>
          { leaf := none, chain := none, error := some e, crashed := false,
            trace := [.newClient, .policyFetch], globalErr := none }
        | .crash _ =>
          { leaf := none, chain := none, error := none, crashed := true,
            trace := [.newClient, .policyFetch], globalErr := none }
        | .ok req =>
          match clnt.certificateRequestResult req with
          | .error e =>
            { leaf := none, chain := none, error := some e, crashed := false,
              trace := [.newClient, .policyFetch, .submit], globalErr := none }
          | .ok serial =>
            match clnt.certificateRetrieveResult serial with
            | .error e =>
              { leaf := none, chain := none, error := some e, crashed := false,
                trace := [.newClient, .policyFetch, .submit, .retrieveCert],
                globalErr := none }
            | .ok info =>
              match clnt.trustChainResult with
              | .error e =>
                { leaf := none, chain := none, error := some e, crashed := false,
                  trace := pipelineSteps, globalErr := none }
              | .ok caChainList =>
                let caChain := (caChainList.map (fun raw =>
                  pemEncodeToMemory { blockType := "CERTIFICATE", bytes := raw })).flatten
                { leaf := some (pemEncodeToMemory
                    { blockType := "CERTIFICATE", bytes := info.x509Raw }),
                  chain := some caChain, error := none, crashed := false,
                  trace := pipelineSteps, globalErr := none }

/-! ## The connection bootstrapper (signer.go lines 33-60) -/

/-- `sampleissuerapi.IssuerSpec` (only `URL` is read). -/
structure IssuerSpec where
  url : String
deriving DecidableEq, Repr

/-- `hvclient.Config` as assembled by the bootstrapper; the parsed TLS
certificate and private key are opaque handles produced by the `x509`
parsers. -/
structure HVConfig where
  apiKey : String
  apiSecret : String
  url : String
  tlsCert : Nat
  tlsKey : Nat
deriving DecidableEq, Repr

/-- Oracles for the external parsers and for `hvconfig.Validate`: the
`x509` parsers return opaque key/certificate handles or an error;
`validateResult` is `hvclient.Config.Validate` (`none` = nil error). -/
structure BootstrapEnv where
  parseCertificateResult : Bytes → Except String Nat
  parsePKCS1Result : Bytes → Except String Nat
  parsePKCS8Result : Bytes → Except String Nat
  validateResult : HVConfig → Option String

/-- Tail of the bootstrapper once the mTLS key is parsed: run
`hvconfig.Validate` and return the signer (its config). -/
def finishBootstrap (env : BootstrapEnv) (spec : IssuerSpec)
    (secret : String → Bytes) (tlsCert tlsKey : Nat) : GoResult HVConfig :=
  let hvconfig : HVConfig :=
    { apiKey := bytesToStr (secret "apikey"),
      apiSecret := bytesToStr (secret "apisecret"),
      url := spec.url, tlsCert := tlsCert, tlsKey := tlsKey }
  match env.validateResult hvconfig with
  | some e => .err e
  | none => .ok hvconfig

/-- `HVCASignerFromIssuerAndSecretData` (lines 33-60). `secret` is the Go
`map[string][]byte` (a missing key yields the empty slice). `pem.Decode`
returning `none` models the nil `*pem.Block`, which the code dereferences
unconditionally (`certDER.Bytes` on line 41, `keyDER.Type` on line 45):
that is the `crash` outcome. -/
def HVCASignerFromIssuerAndSecretData (env : BootstrapEnv) (spec : IssuerSpec)
    (secret : String → Bytes) : GoResult HVConfig :=
  let certDER := pemDecode (secret "cert")
  let keyDER := pemDecode (secret "certkey")
  match certDER with
  | none => .crash "runtime error: invalid memory address or nil pointer dereference"
  | some cb =>
    match env.parseCertificateResult cb.bytes with
    | .error e => .err e
    | .ok tlsCert =>
      match keyDER with
      | none => .crash "runtime error: invalid memory address or nil pointer dereference"
      | some kb =>
        if kb.blockType = "RSA PRIVATE KEY" then
          match env.parsePKCS1Result kb.bytes with
          | .error e => .err e
          | .ok tlsKey => finishBootstrap env spec secret tlsCert tlsKey
        else if kb.blockType = "PRIVATE KEY" then
          match env.parsePKCS8Result kb.bytes with
          | .error e => .err e
          | .ok tlsKey => finishBootstrap env spec secret tlsCert tlsKey
        else .err "unable to determine the mTLS private key type"

/-- Whether a `GoResult` is a normal return. -/
def GoResult.isOk {α : Type} : GoResult α → Bool
  | .ok _ => true
  | _ => false

/-! ## Concrete fixtures used by witnesses and counterexamples -/

/-- A permissive policy: optional subject fields, non-static SANs with
room, RSA over PKCS#10, hash algorithm required with list `[SHA256]`. -/
def polBase : ValidationPolicy :=
  { subjectDN := { commonName := { presence := 1 }, serialNumber := { presence := 1 } },
    san := { dnsNames := { static := false, minCount := 0, maxCount := 3 },
             ipAddresses := { static := false, minCount := 0, maxCount := 3 } },
    publicKey := { keyType := "RSA", keyFormat := 0 },
    signaturePolicy := { hashAlgorithm := { presence := 2, list := ["SHA256"] } } }

def csrBase : CSR :=
  { commonName := "example.com", serialNumber := "", dnsNames := ["a"],
    ipAddresses := [], publicKeyAlgorithm := "RSA" }

/-- The outbound request `buildRequest 0 polBase csrBase` produces. -/
def reqBase : Request :=
  { csr := csrBase,
    subject := { commonName := "example.com", serialNumber := "" },
    san := { dnsNames := ["a", "example.com"], ipAddresses := [] },
    validity := { notBefore := 0, notAfter := 0 },
    signature := { hashAlgorithm := "SHA256" } }

/-- `polBase` with only one DNS-SAN slot (backfill has no room). -/
def polOneSlot : ValidationPolicy :=
  { polBase with
    san := { polBase.san with
             dnsNames := { static := false, minCount := 0, maxCount := 1 } } }

/-- `polBase` requiring at least one DNS SAN, with two slots. -/
def polMinOne : ValidationPolicy :=
  { polBase with
    san := { polBase.san with
             dnsNames := { static := false, minCount := 1, maxCount := 2 } } }

/-- `polBase` with the common name required. -/
def polReqCN : ValidationPolicy :=
  { polBase with subjectDN := { polBase.subjectDN with commonName := { presence := 2 } } }

/-- `polBase` requiring a hash algorithm but acceptable list empty. -/
def polEmptyHash : ValidationPolicy :=
  { polBase with signaturePolicy := { hashAlgorithm := { presence := 2, list := [] } } }

def csrNoDNS : CSR := { csrBase with dnsNames := [] }

def csrNoCN : CSR := { csrBase with commonName := "" }

def csrEC : CSR := { csrBase with publicKeyAlgorithm := "ECDSA" }

/-- A CA that answers every remote call successfully. -/
def okClient : HVClientOracle :=
  { policyResult := .ok polBase,
    certificateRequestResult := fun _ => .ok 42,
    certificateRetrieveResult := fun _ => .ok { x509Raw := [1, 2, 3] },
    trustChainResult := .ok [[4, 5], [6]] }

def okEnv : SignEnv :=
  { newClientResult := .ok okClient, parseCSRResult := fun _ => .ok csrBase }

def failEnv : SignEnv :=
  { newClientResult := .error "tcp dial failed",
    parseCSRResult := fun _ => .error "bad csr" }

def reqCNClient : HVClientOracle := { okClient with policyResult := .ok polReqCN }

def c6Env : SignEnv :=
  { newClientResult := .ok reqCNClient, parseCSRResult := fun _ => .ok csrNoCN }

def emptyHashClient : HVClientOracle := { okClient with policyResult := .ok polEmptyHash }

def c10Env : SignEnv :=
  { newClientResult := .ok emptyHashClient, parseCSRResult := fun _ => .ok csrBase }

/-! ## Helper lemmas about `buildRequest` -/

theorem buildRequest_ok_san {now : Int} {vp : ValidationPolicy} {csr : CSR}
    {req : Request} (h : buildRequest now vp csr = .ok req) :
    req.san.dnsNames = populateDNSNames vp csr (outboundCommonName vp csr) ∧
    req.san.ipAddresses = populateIPAddresses vp csr := by
  unfold buildRequest at h
  split_ifs at h
  all_goals try split at h
  all_goals try exact (GoResult.noConfusion h)
  all_goals injection h with he
  all_goals subst he
  all_goals exact ⟨rfl, rfl⟩

/-! ## Claim C1 — DNS-SAN backfill -/

/-- C1, counterexample: with non-static DNS SANs, `maxCount = 1 > 0`, the
common name carried into the outbound subject, and
`count(CSR.DNSNames) + 1 > policy.max` (no room), the outbound DNS-SAN
set of the built request is empty — not `CSR.DNSNames` as the claim
states: the direct copy on line 124 is guarded by the same
`len(csr.DNSNames) < MaxCount` comparison, so it is skipped as well. -/
theorem c1_counterexample :
    polOneSlot.san.dnsNames.static = false ∧
    0 < polOneSlot.san.dnsNames.maxCount ∧
    outboundCommonName polOneSlot csrBase ≠ "" ∧
    polOneSlot.san.dnsNames.maxCount < (csrBase.dnsNames.length : Int) + 1 ∧
    buildRequest 0 polOneSlot csrBase =
      GoResult.ok { csr := csrBase,
                    subject := { commonName := "example.com", serialNumber := "" },
                    san := { dnsNames := [], ipAddresses := [] },
                    validity := { notBefore := 0, notAfter := 0 },
                    signature := { hashAlgorithm := "SHA256" } } ∧
    populateDNSNames polOneSlot csrBase (outboundCommonName polOneSlot csrBase) ≠
      csrBase.dnsNames := by
  decide

/-- C1, amended: for every CSR and policy under which DNS SANs are
non-static with a positive maximum and the common name has been carried
into the outbound subject, if `count(CSR.DNSNames) + 1 <= policy.max` the
outbound request's DNS SANs equal `CSR.DNSNames ++ [commonName]`; if
there is no room (`count(CSR.DNSNames) + 1 > policy.max`) the outbound
DNS-SAN set is empty (the direct copy shares the no-room guard), with no
error and no truncation by this layer. -/
theorem c1_dns_san_backfill (now : Int) (vp : ValidationPolicy) (csr : CSR)
    (req : Request)
    (hstatic : vp.san.dnsNames.static = false)
    (hmax : 0 < vp.san.dnsNames.maxCount)
    (hcn : outboundCommonName vp csr ≠ "")
    (hok : buildRequest now vp csr = GoResult.ok req) :
    ((csr.dnsNames.length : Int) + 1 ≤ vp.san.dnsNames.maxCount →
      req.san.dnsNames = csr.dnsNames ++ [outboundCommonName vp csr]) ∧
    (vp.san.dnsNames.maxCount < (csr.dnsNames.length : Int) + 1 →
      req.san.dnsNames = []) := by
  obtain ⟨hdns, -⟩ := buildRequest_ok_san hok
  rw [hdns]
  unfold populateDNSNames
  rw [if_pos ⟨hstatic, hmax⟩]
  constructor
  · intro hroom
    have hlt : (csr.dnsNames.length : Int) < vp.san.dnsNames.maxCount := by omega
    rw [if_pos ⟨hcn, hlt⟩, if_pos hlt]
  · intro hnoroom
    have hge : ¬((csr.dnsNames.length : Int) < vp.san.dnsNames.maxCount) := by omega
    rw [if_neg (fun hc => hge hc.2), if_neg hge]

/-- C1, witness for the amended theorem: `polBase` (max 3), one CSR DNS
name, common name "example.com": room remains, so the outbound DNS SANs
are `["a", "example.com"]`. -/
theorem c1_witness :
    ((csrBase.dnsNames.length : Int) + 1 ≤ polBase.san.dnsNames.maxCount →
      reqBase.san.dnsNames = csrBase.dnsNames ++ [outboundCommonName polBase csrBase]) ∧
    (polBase.san.dnsNames.maxCount < (csrBase.dnsNames.length : Int) + 1 →
      reqBase.san.dnsNames = []) :=
  c1_dns_san_backfill 0 polBase csrBase reqBase (by decide) (by decide) (by decide)
    (by decide)

/-! ## Claim C3 — minimum-SAN check uses post-population counts -/

/-- C3: provided the subject checks pass and the later checks (key type,
key format, hash list) would not themselves fire, `Sign`'s validation
block fails with the missing-SANs error exactly when a policy minimum
exceeds the corresponding post-population count — the counts of
`populateDNSNames` (direct copy plus common-name backfill) and
`populateIPAddresses`, not the raw CSR counts. -/
theorem c3_min_count_post_population (now : Int) (vp : ValidationPolicy) (csr : CSR)
    (hcn : ¬(vp.subjectDN.commonName.presence = hvRequired ∧ csr.commonName = ""))
    (hsn : ¬(vp.subjectDN.serialNumber.presence = hvRequired ∧ csr.serialNumber = ""))
    (hkey : vp.publicKey.keyType = csr.publicKeyAlgorithm)
    (hfmt : vp.publicKey.keyFormat = hvPKCS10)
    (hhash : vp.signaturePolicy.hashAlgorithm.presence = 2 →
      vp.signaturePolicy.hashAlgorithm.list ≠ []) :
    (vp.san.dnsNames.minCount >
        ((populateDNSNames vp csr (outboundCommonName vp csr)).length : Int) ∨
      vp.san.ipAddresses.minCount > ((populateIPAddresses vp csr).length : Int)) ↔
    buildRequest now vp csr =
      GoResult.err "atlas validation policy requires additional SANs not present in the provided CSR" := by
  constructor
  · intro hlow
    unfold buildRequest
    rw [if_neg hcn, if_neg hsn, if_pos hlow]
  · intro heq
    by_contra hlow
    unfold buildRequest at heq
    rw [if_neg hcn, if_neg hsn, if_neg hlow, if_neg (fun hne => hne hkey),
      if_neg (fun hne => hne hfmt)] at heq
    by_cases hp : vp.signaturePolicy.hashAlgorithm.presence = 2
    · rw [if_pos hp] at heq
      cases hl : vp.signaturePolicy.hashAlgorithm.list with
      | nil => exact hhash hp hl
      | cons a t => rw [hl] at heq; exact GoResult.noConfusion heq
    · rw [if_neg hp] at heq
      exact GoResult.noConfusion heq

/-- C3, witness: `polMinOne` demands one DNS SAN; the CSR has zero DNS
names but its common name backfills one, so the post-population count
meets the minimum and the missing-SANs error does not occur. -/
theorem c3_witness :
    ¬(polMinOne.san.dnsNames.minCount >
        ((populateDNSNames polMinOne csrNoDNS
          (outboundCommonName polMinOne csrNoDNS)).length : Int) ∨
      polMinOne.san.ipAddresses.minCount >
        ((populateIPAddresses polMinOne csrNoDNS).length : Int)) ∧
    buildRequest 0 polMinOne csrNoDNS ≠
      GoResult.err "atlas validation policy requires additional SANs not present in the provided CSR" := by
  have h := c3_min_count_post_population 0 polMinOne csrNoDNS (by decide) (by decide)
    (by decide) (by decide) (by decide)
  have hno : ¬(polMinOne.san.dnsNames.minCount >
      ((populateDNSNames polMinOne csrNoDNS
        (outboundCommonName polMinOne csrNoDNS)).length : Int) ∨
    polMinOne.san.ipAddresses.minCount >
      ((populateIPAddresses polMinOne csrNoDNS).length : Int)) := by decide
  exact ⟨hno, fun heq => hno (h.mpr heq)⟩

/-- The scenario behind C3's second sentence, concretely: a CSR with zero
DNS names passes `polMinOne` (minimum one DNS SAN) thanks to the
common-name backfill alone. -/
theorem zero_dns_backfill_passes :
    csrNoDNS.dnsNames = [] ∧ polMinOne.san.dnsNames.minCount = 1 ∧
    (buildRequest 0 polMinOne csrNoDNS).isOk = true := by decide

/-! ## Claim C7 — key-type mismatch error names both algorithms -/

/-- C7: once the checks before it pass, the key-type comparison fails
exactly on a name mismatch, with an error message that is the
concatenation `"...CSR - " ++ csrAlgorithm ++ "Atlas - " ++ policyAlgorithm`
(so it contains both names); on equal names the check does not fail — the
request is built whenever the remaining checks are satisfiable. -/
theorem c7_key_type_mismatch (now : Int) (vp : ValidationPolicy) (csr : CSR)
    (hcn : ¬(vp.subjectDN.commonName.presence = hvRequired ∧ csr.commonName = ""))
    (hsn : ¬(vp.subjectDN.serialNumber.presence = hvRequired ∧ csr.serialNumber = ""))
    (hsan : ¬(vp.san.dnsNames.minCount >
        ((populateDNSNames vp csr (outboundCommonName vp csr)).length : Int) ∨
      vp.san.ipAddresses.minCount > ((populateIPAddresses vp csr).length : Int))) :
    (vp.publicKey.keyType ≠ csr.publicKeyAlgorithm →
      buildRequest now vp csr =
        GoResult.err ("csr public key type doesn't match Atlas account pubic key type: CSR - " ++
          (csr.publicKeyAlgorithm ++ ("Atlas - " ++ vp.publicKey.keyType)))) ∧
    (vp.publicKey.keyType = csr.publicKeyAlgorithm ∧
      vp.publicKey.keyFormat = hvPKCS10 ∧
      (vp.signaturePolicy.hashAlgorithm.presence = 2 →
        vp.signaturePolicy.hashAlgorithm.list ≠ []) →
      (buildRequest now vp csr).isOk = true) := by
  constructor
  · intro hne
    unfold buildRequest
    rw [if_neg hcn, if_neg hsn, if_neg hsan, if_pos hne]
  · rintro ⟨hkey, hfmt, hhash⟩
    unfold buildRequest
    rw [if_neg hcn, if_neg hsn, if_neg hsan, if_neg (fun h => h hkey),
      if_neg (fun h => h hfmt)]
    by_cases hp : vp.signaturePolicy.hashAlgorithm.presence = 2
    · rw [if_pos hp]
      cases hl : vp.signaturePolicy.hashAlgorithm.list with
      | nil => exact absurd hl (hhash hp)
      | cons a t => rfl
    · rw [if_neg hp]; rfl

/-- C7, witness: an ECDSA CSR against the RSA-keyed `polBase` yields the
mismatch error spelling out both algorithm names; equal names build a
request. -/
theorem c7_witness :
    (polBase.publicKey.keyType ≠ csrEC.publicKeyAlgorithm →
      buildRequest 0 polBase csrEC =
        GoResult.err ("csr public key type doesn't match Atlas account pubic key type: CSR - " ++
          (csrEC.publicKeyAlgorithm ++ ("Atlas - " ++ polBase.publicKey.keyType)))) ∧
    (polBase.publicKey.keyType = csrEC.publicKeyAlgorithm ∧
      polBase.publicKey.keyFormat = hvPKCS10 ∧
      (polBase.signaturePolicy.hashAlgorithm.presence = 2 →
        polBase.signaturePolicy.hashAlgorithm.list ≠ []) →
      (buildRequest 0 polBase csrEC).isOk = true) :=
  c7_key_type_mismatch 0 polBase csrEC (by decide) (by decide) (by decide)

/-! ## Claim C10 — empty acceptable-hash list panics -/

/-- C10: when the fetched policy marks the hash algorithm required
(presence 2) with an empty acceptable list, and control reaches the
selection (all earlier validations pass), `List[0]` is out of bounds:
`buildRequest` crashes and `Sign` aborts with no error value and no
output. -/
theorem c10_empty_hash_list_panics (env : SignEnv) (now : Int)
    (g : Option String) (b : Bytes) (clnt : HVClientOracle) (csr : CSR)
    (vp : ValidationPolicy)
    (hnc : env.newClientResult = .ok clnt)
    (hparse : env.parseCSRResult b = .ok csr)
    (hpol : clnt.policyResult = .ok vp)
    (hcn : ¬(vp.subjectDN.commonName.presence = hvRequired ∧ csr.commonName = ""))
    (hsn : ¬(vp.subjectDN.serialNumber.presence = hvRequired ∧ csr.serialNumber = ""))
    (hsan : ¬(vp.san.dnsNames.minCount >
        ((populateDNSNames vp csr (outboundCommonName vp csr)).length : Int) ∨
      vp.san.ipAddresses.minCount > ((populateIPAddresses vp csr).length : Int)))
    (hkey : vp.publicKey.keyType = csr.publicKeyAlgorithm)
    (hfmt : vp.publicKey.keyFormat = hvPKCS10)
    (hpres : vp.signaturePolicy.hashAlgorithm.presence = 2)
    (hlist : vp.signaturePolicy.hashAlgorithm.list = []) :
    buildRequest now vp csr =
      GoResult.crash "runtime error: index out of range [0] with length 0" ∧
    (Sign env now g b).crashed = true ∧ (Sign env now g b).error = none ∧
    (Sign env now g b).leaf = none ∧ (Sign env now g b).chain = none := by
  have hb : buildRequest now vp csr =
      GoResult.crash "runtime error: index out of range [0] with length 0" := by
    unfold buildRequest
    rw [if_neg hcn, if_neg hsn, if_neg hsan, if_neg (fun h => h hkey),
      if_neg (fun h => h hfmt), if_pos hpres, hlist]
  have hs : Sign env now g b =
      { leaf := none, chain := none, error := none, crashed := true,
        trace := [.newClient, .policyFetch], globalErr := none } := by
    unfold Sign
    rw [hnc]
    dsimp only
    rw [hparse]
    dsimp only
    rw [hpol]
    dsimp only
    rw [hb]
  rw [hs]
  exact ⟨hb, rfl, rfl, rfl, rfl⟩

/-- C10, witness: `polEmptyHash` (hash required, empty list) against the
otherwise conforming `csrBase` makes `Sign` crash. -/
theorem c10_witness :
    buildRequest 0 polEmptyHash csrBase =
      GoResult.crash "runtime error: index out of range [0] with length 0" ∧
    (Sign c10Env 0 none []).crashed = true ∧ (Sign c10Env 0 none []).error = none ∧
    (Sign c10Env 0 none []).leaf = none ∧ (Sign c10Env 0 none []).chain = none :=
  c10_empty_hash_list_panics c10Env 0 none [] emptyHashClient csrBase polEmptyHash
    rfl rfl rfl (by decide) (by decide) (by decide) (by decide) (by decide)
    (by decide) (by decide)

/-! ## Claim C2 — every error exit returns (nil, nil, err) and stops -/

/-- C2: whenever `Sign` returns an error, both output byte sequences are
nil, and the error is precisely the one produced by a single failing
step whose trace ends at that step: client creation or CSR parse (only
`newClient` attempted), policy fetch or a validation failure (trace ends
at `policyFetch`), submission (ends at `submit`), certificate retrieval
(ends at `retrieveCert`), or chain retrieval (all five remote steps
attempted, but nothing encoded). In every case the steps after the
failing one are absent from the trace — the pipeline aborts. -/
theorem c2_error_exits (env : SignEnv) (now : Int) (g : Option String)
    (b : Bytes) (e : String) (h : (Sign env now g b).error = some e) :
    (Sign env now g b).leaf = none ∧ (Sign env now g b).chain = none ∧
    ((env.newClientResult = .error e ∧
        (Sign env now g b).trace = [RemoteStep.newClient]) ∨
     (∃ clnt, env.newClientResult = .ok clnt ∧
        env.parseCSRResult b = .error e ∧
        (Sign env now g b).trace = [RemoteStep.newClient]) ∨
     (∃ clnt csr, env.newClientResult = .ok clnt ∧
        env.parseCSRResult b = .ok csr ∧
        clnt.policyResult = .error e ∧
        (Sign env now g b).trace = [RemoteStep.newClient, RemoteStep.policyFetch]) ∨
     (∃ clnt csr vp, env.newClientResult = .ok clnt ∧
        env.parseCSRResult b = .ok csr ∧
        clnt.policyResult = .ok vp ∧
        buildRequest now vp csr = .err e ∧
        (Sign env now g b).trace = [RemoteStep.newClient, RemoteStep.policyFetch]) ∨
     (∃ clnt csr vp req, env.newClientResult = .ok clnt ∧
        env.parseCSRResult b = .ok csr ∧
        clnt.policyResult = .ok vp ∧
        buildRequest now vp csr = .ok req ∧
        clnt.certificateRequestResult req = .error e ∧
        (Sign env now g b).trace =
          [RemoteStep.newClient, RemoteStep.policyFetch, RemoteStep.submit]) ∨
     (∃ clnt csr vp req serial, env.newClientResult = .ok clnt ∧
        env.parseCSRResult b = .ok csr ∧
        clnt.policyResult = .ok vp ∧
        buildRequest now vp csr = .ok req ∧
        clnt.certificateRequestResult req = .ok serial ∧
        clnt.certificateRetrieveResult serial = .error e ∧
        (Sign env now g b).trace =
          [RemoteStep.newClient, RemoteStep.policyFetch, RemoteStep.submit,
            RemoteStep.retrieveCert]) ∨
     (∃ clnt csr vp req serial info, env.newClientResult = .ok clnt ∧
        env.parseCSRResult b = .ok csr ∧
        clnt.policyResult = .ok vp ∧
        buildRequest now vp csr = .ok req ∧
        clnt.certificateRequestResult req = .ok serial ∧
        clnt.certificateRetrieveResult serial = .ok info ∧
        clnt.trustChainResult = .error e ∧
        (Sign env now g b).trace = pipelineSteps)) := by
  cases hnc : env.newClientResult with
  | error e2 =>
    have hs : Sign env now g b =
        { leaf := none, chain := none, error := some e2, crashed := false,
          trace := [.newClient], globalErr := some e2 } := by
      unfold Sign; rw [hnc]
    rw [hs] at h
    dsimp only at h
    injection h with he
    subst he
    rw [hs]
    exact ⟨rfl, rfl, Or.inl ⟨rfl, rfl⟩⟩
  | ok clnt =>
    cases hp : env.parseCSRResult b with
    | error e2 =>
      have hs : Sign env now g b =
          { leaf := none, chain := none, error := some e2, crashed := false,
            trace := [.newClient], globalErr := none } := by
        unfold Sign; rw [hnc]; dsimp only; rw [hp]
      rw [hs] at h
      dsimp only at h
      injection h with he
      subst he
      rw [hs]
      exact ⟨rfl, rfl, Or.inr (Or.inl ⟨clnt, rfl, rfl, rfl⟩)⟩
    | ok csr =>
      cases hpol : clnt.policyResult with
      | error e2 =>
        have hs : Sign env now g b =
            { leaf := none, chain := none, error := some e2, crashed := false,
              trace := [.newClient, .policyFetch], globalErr := none } := by
          unfold Sign; rw [hnc]; dsimp only; rw [hp]; dsimp only; rw [hpol]
        rw [hs] at h
        dsimp only at h
        injection h with he
        subst he
        rw [hs]
        exact ⟨rfl, rfl, Or.inr (Or.inr (Or.inl ⟨clnt, csr, rfl, rfl, hpol, rfl⟩))⟩
      | ok vp =>
        cases hbr : buildRequest now vp csr with
        | err e2 =>
          have hs : Sign env now g b =
              { leaf := none, chain := none, error := some e2, crashed := false,
                trace := [.newClient, .policyFetch], globalErr := none } := by
            unfold Sign; rw [hnc]; dsimp only; rw [hp]; dsimp only; rw [hpol]
            dsimp only; rw [hbr]
          rw [hs] at h
          dsimp only at h
          injection h with he
          subst he
          rw [hs]
          exact ⟨rfl, rfl, Or.inr (Or.inr (Or.inr (Or.inl
            ⟨clnt, csr, vp, rfl, rfl, hpol, hbr, rfl⟩)))⟩
        | crash m =>
          have hs : Sign env now g b =
              { leaf := none, chain := none, error := none, crashed := true,
                trace := [.newClient, .policyFetch], globalErr := none } := by
            unfold Sign; rw [hnc]; dsimp only; rw [hp]; dsimp only; rw [hpol]
            dsimp only; rw [hbr]
          rw [hs] at h
          exact Option.noConfusion h
        | ok req =>
          cases hsub : clnt.certificateRequestResult req with
          | error e2 =>
            have hs : Sign env now g b =
                { leaf := none, chain := none, error := some e2, crashed := false,
                  trace := [.newClient, .policyFetch, .submit], globalErr := none } := by
              unfold Sign; rw [hnc]; dsimp only; rw [hp]; dsimp only; rw [hpol]
              dsimp only; rw [hbr]; dsimp only; rw [hsub]
            rw [hs] at h
            dsimp only at h
            injection h with he
            subst he
            rw [hs]
            exact ⟨rfl, rfl, Or.inr (Or.inr (Or.inr (Or.inr (Or.inl
              ⟨clnt, csr, vp, req, rfl, rfl, hpol, hbr, hsub, rfl⟩))))⟩
          | ok serial =>
            cases hret : clnt.certificateRetrieveResult serial with
            | error e2 =>
              have hs : Sign env now g b =
                  { leaf := none, chain := none, error := some e2, crashed := false,
                    trace := [.newClient, .policyFetch, .submit, .retrieveCert],
                    globalErr := none } := by
                unfold Sign; rw [hnc]; dsimp only; rw [hp]; dsimp only; rw [hpol]
                dsimp only; rw [hbr]; dsimp only; rw [hsub]; dsimp only; rw [hret]
              rw [hs] at h
              dsimp only at h
              injection h with he
              subst he
              rw [hs]
              exact ⟨rfl, rfl, Or.inr (Or.inr (Or.inr (Or.inr (Or.inr (Or.inl
                ⟨clnt, csr, vp, req, serial, rfl, rfl, hpol, hbr, hsub, hret, rfl⟩)))))⟩
            | ok info =>
              cases hch : clnt.trustChainResult with
              | error e2 =>
                have hs : Sign env now g b =
                    { leaf := none, chain := none, error := some e2, crashed := false,
                      trace := pipelineSteps, globalErr := none } := by
                  unfold Sign; rw [hnc]; dsimp only; rw [hp]; dsimp only; rw [hpol]
                  dsimp only; rw [hbr]; dsimp only; rw [hsub]; dsimp only; rw [hret]
                  dsimp only; rw [hch]
                rw [hs] at h
                dsimp only at h
                injection h with he
                subst he
                rw [hs]
                exact ⟨rfl, rfl, Or.inr (Or.inr (Or.inr (Or.inr (Or.inr (Or.inr
                  ⟨clnt, csr, vp, req, serial, info, rfl, rfl, hpol, hbr, hsub,
                    hret, hch, rfl⟩)))))⟩
              | ok chainRaws =>
                have hs : Sign env now g b =
                    { leaf := some (pemEncodeToMemory
                        { blockType := "CERTIFICATE", bytes := info.x509Raw }),
                      chain := some ((chainRaws.map fun raw =>
                        pemEncodeToMemory
                          { blockType := "CERTIFICATE", bytes := raw }).flatten),
                      error := none, crashed := false, trace := pipelineSteps,
                      globalErr := none } := by
                  unfold Sign; rw [hnc]; dsimp only; rw [hp]; dsimp only; rw [hpol]
                  dsimp only; rw [hbr]; dsimp only; rw [hsub]; dsimp only; rw [hret]
                  dsimp only; rw [hch]
                rw [hs] at h
                exact Option.noConfusion h

/-- C2, witness: a failed client creation yields the error with both
outputs nil and only the first pipeline step attempted. -/
theorem c2_witness :
    (Sign failEnv 0 none []).leaf = none ∧ (Sign failEnv 0 none []).chain = none ∧
    ((failEnv.newClientResult = .error "tcp dial failed" ∧
        (Sign failEnv 0 none []).trace = [RemoteStep.newClient]) ∨
     (∃ clnt, failEnv.newClientResult = .ok clnt ∧
        failEnv.parseCSRResult [] = .error "tcp dial failed" ∧
        (Sign failEnv 0 none []).trace = [RemoteStep.newClient]) ∨
     (∃ clnt csr, failEnv.newClientResult = .ok clnt ∧
        failEnv.parseCSRResult [] = .ok csr ∧
        clnt.policyResult = .error "tcp dial failed" ∧
        (Sign failEnv 0 none []).trace = [RemoteStep.newClient, RemoteStep.policyFetch]) ∨
     (∃ clnt csr vp, failEnv.newClientResult = .ok clnt ∧
        failEnv.parseCSRResult [] = .ok csr ∧
        clnt.policyResult = .ok vp ∧
        buildRequest 0 vp csr = .err "tcp dial failed" ∧
        (Sign failEnv 0 none []).trace = [RemoteStep.newClient, RemoteStep.policyFetch]) ∨
     (∃ clnt csr vp req, failEnv.newClientResult = .ok clnt ∧
        failEnv.parseCSRResult [] = .ok csr ∧
        clnt.policyResult = .ok vp ∧
        buildRequest 0 vp csr = .ok req ∧
        clnt.certificateRequestResult req = .error "tcp dial failed" ∧
        (Sign failEnv 0 none []).trace =
          [RemoteStep.newClient, RemoteStep.policyFetch, RemoteStep.submit]) ∨
     (∃ clnt csr vp req serial, failEnv.newClientResult = .ok clnt ∧
        failEnv.parseCSRResult [] = .ok csr ∧
        clnt.policyResult = .ok vp ∧
        buildRequest 0 vp csr = .ok req ∧
        clnt.certificateRequestResult req = .ok serial ∧
        clnt.certificateRetrieveResult serial = .error "tcp dial failed" ∧
        (Sign failEnv 0 none []).trace =
          [RemoteStep.newClient, RemoteStep.policyFetch, RemoteStep.submit,
            RemoteStep.retrieveCert]) ∨
     (∃ clnt csr vp req serial info, failEnv.newClientResult = .ok clnt ∧
        failEnv.parseCSRResult [] = .ok csr ∧
        clnt.policyResult = .ok vp ∧
        buildRequest 0 vp csr = .ok req ∧
        clnt.certificateRequestResult req = .ok serial ∧
        clnt.certificateRetrieveResult serial = .ok info ∧
        clnt.trustChainResult = .error "tcp dial failed" ∧
        (Sign failEnv 0 none []).trace = pipelineSteps)) :=
  c2_error_exits failEnv 0 none [] "tcp dial failed" (by decide)

/-! ## Claim C5 — shared mutable state written by `Sign` -/

/-- C5, counterexample: a `Sign` call on an all-successful environment
overwrites the package-level `err` variable (signer.go line 15) — its
prior value does not survive the call, refuting "no mutable state shared
across invocations is written by any Sign call". -/
theorem c5_counterexample :
    (Sign okEnv 0 (some "stale error") []).globalErr ≠ some "stale error" := by
  decide

/-- C5, amended: each invocation builds its own request and performs its
own remote calls, but every `Sign` call writes the package-level `err`
variable: the statement `clnt, err = hvclient.NewClient(...)` stores the
client-creation outcome there (nil on success), so shared mutable state
is written on every call and concurrent invocations race on it. -/
theorem c5_global_err_overwritten (env : SignEnv) (now : Int)
    (g : Option String) (b : Bytes) :
    (Sign env now g b).globalErr =
      (match env.newClientResult with
        | .ok _ => none
        | .error e => some e) := by
  unfold Sign
  cases env.newClientResult with
  | error e => rfl
  | ok clnt =>
    dsimp only
    repeat' split
    all_goals rfl

/-! ## Claim C6 — required common name missing aborts before submission -/

/-- C6: when the fetched policy marks the common name required and the
CSR's common name is empty, `Sign` returns `(nil, nil, error)` with the
validation message naming the common name, and no submission to the CA is
attempted. -/
theorem c6_required_cn_missing (env : SignEnv) (now : Int) (g : Option String)
    (b : Bytes) (clnt : HVClientOracle) (csr : CSR) (vp : ValidationPolicy)
    (hnc : env.newClientResult = .ok clnt)
    (hparse : env.parseCSRResult b = .ok csr)
    (hempty : csr.commonName = "")
    (hpol : clnt.policyResult = .ok vp)
    (hreq : vp.subjectDN.commonName.presence = hvRequired) :
    Sign env now g b =
      { leaf := none, chain := none,
        error := some "atlas validation policy requires subject common name, but CSR did not contain one",
        crashed := false, trace := [.newClient, .policyFetch], globalErr := none } ∧
    RemoteStep.submit ∉ (Sign env now g b).trace := by
  have hb : buildRequest now vp csr =
      GoResult.err "atlas validation policy requires subject common name, but CSR did not contain one" := by
    unfold buildRequest
    rw [if_pos ⟨hreq, hempty⟩]
  have hs : Sign env now g b =
      { leaf := none, chain := none,
        error := some "atlas validation policy requires subject common name, but CSR did not contain one",
        crashed := false, trace := [.newClient, .policyFetch], globalErr := none } := by
    unfold Sign
    rw [hnc]
    dsimp only
    rw [hparse]
    dsimp only
    rw [hpol]
    dsimp only
    rw [hb]
  refine ⟨hs, ?_⟩
  rw [hs]
  decide

/-- C6, witness: `polReqCN` (common name required) against a CSR with an
empty common name. -/
theorem c6_witness :
    Sign c6Env 0 none [] =
      { leaf := none, chain := none,
        error := some "atlas validation policy requires subject common name, but CSR did not contain one",
        crashed := false, trace := [.newClient, .policyFetch], globalErr := none } ∧
    RemoteStep.submit ∉ (Sign c6Env 0 none []).trace :=
  c6_required_cn_missing c6Env 0 none [] reqCNClient csrNoCN polReqCN
    rfl rfl (by decide) rfl (by decide)

/-! ## Claim C9 — PEM round trip of leaf and chain -/

/-- C9: on a successful issuance the leaf output is the PEM encoding of
the retrieved certificate's raw DER and decodes back to those identical
bytes; the chain output is the concatenation of one `CERTIFICATE` PEM
block per chain certificate in CA-returned order, each of which decodes
back to its certificate's identical raw DER. -/
theorem c9_pem_round_trip (env : SignEnv) (now : Int) (g : Option String)
    (b : Bytes) (clnt : HVClientOracle) (csr : CSR) (vp : ValidationPolicy)
    (req : Request) (serial : Int) (info : CertInfo) (chainRaws : List Bytes)
    (hnc : env.newClientResult = .ok clnt)
    (hparse : env.parseCSRResult b = .ok csr)
    (hpol : clnt.policyResult = .ok vp)
    (hbuild : buildRequest now vp csr = .ok req)
    (hsubmit : clnt.certificateRequestResult req = .ok serial)
    (hretr : clnt.certificateRetrieveResult serial = .ok info)
    (hchain : clnt.trustChainResult = .ok chainRaws)
    (hbytes : ∀ x ∈ info.x509Raw, x < 256)
    (hcbytes : ∀ r ∈ chainRaws, ∀ x ∈ r, x < 256) :
    (Sign env now g b).leaf =
      some (pemEncodeToMemory { blockType := "CERTIFICATE", bytes := info.x509Raw }) ∧
    (Sign env now g b).chain =
      some ((chainRaws.map fun r =>
        pemEncodeToMemory { blockType := "CERTIFICATE", bytes := r }).flatten) ∧
    pemDecode (pemEncodeToMemory { blockType := "CERTIFICATE", bytes := info.x509Raw }) =
      some { blockType := "CERTIFICATE", bytes := info.x509Raw } ∧
    ∀ r ∈ chainRaws,
      pemDecode (pemEncodeToMemory { blockType := "CERTIFICATE", bytes := r }) =
        some { blockType := "CERTIFICATE", bytes := r } := by
  have hs : Sign env now g b =
      { leaf := some (pemEncodeToMemory
          { blockType := "CERTIFICATE", bytes := info.x509Raw }),
        chain := some ((chainRaws.map fun r =>
          pemEncodeToMemory { blockType := "CERTIFICATE", bytes := r }).flatten),
        error := none, crashed := false, trace := pipelineSteps, globalErr := none } := by
    unfold Sign
    rw [hnc]
    dsimp only
    rw [hparse]
    dsimp only
    rw [hpol]
    dsimp only
    rw [hbuild]
    dsimp only
    rw [hsubmit]
    dsimp only
    rw [hretr]
    dsimp only
    rw [hchain]
  exact ⟨by rw [hs], by rw [hs],
    pemDecode_pemEncode_certificate _ hbytes,
    fun r hr => pemDecode_pemEncode_certificate r (hcbytes r hr)⟩

/-- C9, witness: the all-successful environment `okEnv` (leaf DER
`[1,2,3]`, chain DERs `[[4,5],[6]]`). -/
theorem c9_witness :
    (Sign okEnv 0 none []).leaf =
      some (pemEncodeToMemory { blockType := "CERTIFICATE", bytes := [1, 2, 3] }) ∧
    (Sign okEnv 0 none []).chain =
      some (([[4, 5], [6]].map fun r =>
        pemEncodeToMemory { blockType := "CERTIFICATE", bytes := r }).flatten) ∧
    pemDecode (pemEncodeToMemory { blockType := "CERTIFICATE", bytes := [1, 2, 3] }) =
      some { blockType := "CERTIFICATE", bytes := [1, 2, 3] } ∧
    ∀ r ∈ [[4, 5], [6]],
      pemDecode (pemEncodeToMemory { blockType := "CERTIFICATE", bytes := r }) =
        some { blockType := "CERTIFICATE", bytes := r } :=
  c9_pem_round_trip okEnv 0 none [] okClient csrBase polBase reqBase 42
    { x509Raw := [1, 2, 3] } [[4, 5], [6]]
    rfl rfl rfl (by decide) rfl rfl rfl (by decide) (by decide)

/-! ## Claims C4 and C8 — bootstrapper PEM handling -/

def specBase : IssuerSpec := { url := "https://emea.api.hvca.globalsign.com:8443/v2" }

/-- Bootstrap environment whose external parsers all succeed. -/
def bootEnv : BootstrapEnv :=
  { parseCertificateResult := fun _ => .ok 7,
    parsePKCS1Result := fun _ => .ok 11,
    parsePKCS8Result := fun _ => .ok 13,
    validateResult := fun _ => none }

def certPem : Bytes := pemEncodeToMemory { blockType := "CERTIFICATE", bytes := [2] }

def rsaKeyPem : Bytes :=
  pemEncodeToMemory { blockType := "RSA PRIVATE KEY", bytes := [48] }

/-- Secret material with a well-formed client certificate but a private
key that is not PEM at all. -/
def badKeySecret : String → Bytes := fun k => if k = "cert" then certPem else []

/-- Secret material with a well-formed certificate and a PKCS#1-typed key. -/
def c8Secret : String → Bytes :=
  fun k => if k = "cert" then certPem else if k = "certkey" then rsaKeyPem else []

/-- C4: on secret material whose certificate (first conjunct: any
environment, all-empty secret) or private key (second conjunct: valid
certificate, empty key bytes) fails PEM parsing, the bootstrapper
dereferences the nil `*pem.Block` returned by `pem.Decode` and panics —
it does not return the configuration error as data that the claim (and
§7 of the spec) require. -/
theorem c4_malformed_pem_panics :
    (∀ (env : BootstrapEnv) (spec : IssuerSpec),
      HVCASignerFromIssuerAndSecretData env spec (fun _ => []) =
        GoResult.crash "runtime error: invalid memory address or nil pointer dereference") ∧
    HVCASignerFromIssuerAndSecretData bootEnv specBase badKeySecret =
      GoResult.crash "runtime error: invalid memory address or nil pointer dereference" :=
  ⟨fun _ _ => rfl, by decide⟩

/-- C8: once the certificate block parses, the key dispatch follows the
declared PEM type: `"RSA PRIVATE KEY"` goes to the PKCS#1 parser,
`"PRIVATE KEY"` to the PKCS#8 parser, and any other type returns nil with
the error `"unable to determine the mTLS private key type"`. -/
theorem c8_key_pem_dispatch (env : BootstrapEnv) (spec : IssuerSpec)
    (secret : String → Bytes) (cb kb : PemBlock) (cert : Nat)
    (hc : pemDecode (secret "cert") = some cb)
    (hk : pemDecode (secret "certkey") = some kb)
    (hcert : env.parseCertificateResult cb.bytes = .ok cert) :
    (kb.blockType = "RSA PRIVATE KEY" →
      HVCASignerFromIssuerAndSecretData env spec secret =
        (match env.parsePKCS1Result kb.bytes with
          | .error e => .err e
          | .ok tlsKey => finishBootstrap env spec secret cert tlsKey)) ∧
    (kb.blockType = "PRIVATE KEY" →
      HVCASignerFromIssuerAndSecretData env spec secret =
        (match env.parsePKCS8Result kb.bytes with
          | .error e => .err e
          | .ok tlsKey => finishBootstrap env spec secret cert tlsKey)) ∧
    (kb.blockType ≠ "RSA PRIVATE KEY" ∧ kb.blockType ≠ "PRIVATE KEY" →
      HVCASignerFromIssuerAndSecretData env spec secret =
        GoResult.err "unable to determine the mTLS private key type") := by
  have hmain : HVCASignerFromIssuerAndSecretData env spec secret =
      (if kb.blockType = "RSA PRIVATE KEY" then
        match env.parsePKCS1Result kb.bytes with
          | .error e => .err e
          | .ok tlsKey => finishBootstrap env spec secret cert tlsKey
      else if kb.blockType = "PRIVATE KEY" then
        match env.parsePKCS8Result kb.bytes with
          | .error e => .err e
          | .ok tlsKey => finishBootstrap env spec secret cert tlsKey
      else .err "unable to determine the mTLS private key type") := by
    unfold HVCASignerFromIssuerAndSecretData
    rw [hc]
    dsimp only
    rw [hcert]
    dsimp only
    rw [hk]
  refine ⟨fun ht => ?_, fun ht => ?_, fun ht => ?_⟩
  · rw [hmain, if_pos ht]
  · rw [hmain, if_neg (by rw [ht]; decide), if_pos ht]
  · rw [hmain, if_neg ht.1, if_neg ht.2]

/-- C8, witness: a `"RSA PRIVATE KEY"`-typed key block is routed to the
PKCS#1 parser (whose successful handle 11 reaches the final config). -/
theorem c8_witness :
    (("RSA PRIVATE KEY" : String) = "RSA PRIVATE KEY" →
      HVCASignerFromIssuerAndSecretData bootEnv specBase c8Secret =
        (match bootEnv.parsePKCS1Result [48] with
          | .error e => .err e
          | .ok tlsKey => finishBootstrap bootEnv specBase c8Secret 7 tlsKey)) ∧
    (("RSA PRIVATE KEY" : String) = "PRIVATE KEY" →
      HVCASignerFromIssuerAndSecretData bootEnv specBase c8Secret =
        (match bootEnv.parsePKCS8Result [48] with
          | .error e => .err e
          | .ok tlsKey => finishBootstrap bootEnv specBase c8Secret 7 tlsKey)) ∧
    (("RSA PRIVATE KEY" : String) ≠ "RSA PRIVATE KEY" ∧
        ("RSA PRIVATE KEY" : String) ≠ "PRIVATE KEY" →
      HVCASignerFromIssuerAndSecretData bootEnv specBase c8Secret =
        GoResult.err "unable to determine the mTLS private key type") :=
  c8_key_pem_dispatch bootEnv specBase c8Secret
    { blockType := "CERTIFICATE", bytes := [2] }
    { blockType := "RSA PRIVATE KEY", bytes := [48] } 7
    (by decide) (by decide) rfl

end AtlasSigner
